import Mathlib

/-!
Verification model of the fuel-consumption calculator.

The repository has two versions of the same single-component React app:
an earlier English-only version and the current bilingual (English /
Indonesian) version in src/App.tsx.  Both hold component state (two
odometer text fields, a selected vehicle identifier, an optional
numeric result, an error string where the empty string means no error,
and — in the bilingual version — the active language) and mutate it
only inside discrete handlers: calculateFuelConsumption, resetForm,
toggleLanguage and the field onChange setters.

Numbers are modelled as exact rationals.  The JavaScript builtin
parseFloat is modelled on the grammar of finite decimal literals
(optional whitespace, optional sign, digits with optional fraction and
optional exponent, longest valid prefix, at least one digit required);
a failed parse (NaN in JavaScript) is modelled as none.  The Infinity
literal and double-precision rounding or overflow are outside the
model.  Math.round is modelled exactly: it rounds to the nearest
integer with ties going toward positive infinity.

The files vehicleConfig.json and translations.json imported by both
versions are not under src, so the vehicle catalog is a parameter of
the operations and the message catalog is modelled from the spec; the
definitions concerned say so in their doc comments.
-/

namespace FuelCalc

/-- Decimal digit test used by the number-literal scanner. -/
def isDigit (c : Char) : Bool := '0' ≤ c && c ≤ '9'

/-- Numeric value of a decimal digit character. -/
def digitVal (c : Char) : ℕ := c.toNat - '0'.toNat

/-- Whitespace skipped by parseFloat before the literal (ASCII subset of
the JavaScript WhiteSpace and LineTerminator sets). -/
def isSpace (c : Char) : Bool :=
  c = ' ' || c = '\t' || c = '\n' || c = '\r' || c = '\x0b' || c = '\x0c'

/-- Split a character list into its longest leading run of decimal
digits and the remainder. -/
def takeDigits : List Char → List Char × List Char
  | [] => ([], [])
  | c :: cs =>
    if isDigit c then
      let p := takeDigits cs
      (c :: p.1, p.2)
    else ([], c :: cs)

/-- Value of a digit string read in base 10. -/
def digitsToNat (ds : List Char) : ℕ :=
  ds.foldl (fun acc c => 10 * acc + digitVal c) 0

/-- Scan the unsigned significand: either digits with an optional dot
and optional further digits, or a dot followed by digits; at least one
digit is required.  The fraction digits are folded into an integer
mantissa with a compensating base-ten exponent, so a literal with
fraction digits f after the dot yields mantissa digits followed by f
and exponent minus the length of f.  Returns the mantissa, that
exponent and the unconsumed remainder. -/
def scanSig (cs : List Char) : Option (ℕ × ℤ × List Char) :=
  let p := takeDigits cs
  match p.2 with
  | '.' :: rest =>
    let q := takeDigits rest
    if p.1.isEmpty && q.1.isEmpty then none
    else some (digitsToNat (p.1 ++ q.1), -(q.1.length : ℤ), q.2)
  | _ => if p.1.isEmpty then none else some (digitsToNat p.1, 0, p.2)

/-- Scan an optional exponent part after the significand: e or E, an
optional sign, then digits.  An exponent marker not followed by digits
is not part of the literal and contributes exponent zero, matching the
longest-valid-prefix rule of parseFloat. -/
def scanExp (cs : List Char) : ℤ :=
  match cs with
  | c :: rest =>
    if c = 'e' || c = 'E' then
      match rest with
      | '+' :: r2 => (digitsToNat (takeDigits r2).1 : ℤ)
      | '-' :: r2 => -(digitsToNat (takeDigits r2).1 : ℤ)
      | r2 => (digitsToNat (takeDigits r2).1 : ℤ)
    else 0
  | [] => 0

/-- Significand followed by the optional exponent: mantissa and total
base-ten exponent. -/
def scanAfterSign (cs : List Char) : Option (ℕ × ℤ) :=
  match scanSig cs with
  | none => none
  | some m => some (m.1, m.2.1 + scanExp m.2.2)

/-- Discrete part of the parseFloat model: leading whitespace is
skipped, then an optional sign, then a decimal literal.  Returns the
negative-sign flag, the integer mantissa and the base-ten exponent;
none models NaN. -/
def scanFloat (cs : List Char) : Option (Bool × ℕ × ℤ) :=
  match cs.dropWhile isSpace with
  | '+' :: rest => (scanAfterSign rest).map (fun m => (false, m))
  | '-' :: rest => (scanAfterSign rest).map (fun m => (true, m))
  | rest => (scanAfterSign rest).map (fun m => (false, m))

/-- Ten raised to an integer power, as a rational. -/
def tenPow (e : ℤ) : ℚ :=
  if 0 ≤ e then (10 : ℚ) ^ e.toNat else 1 / (10 : ℚ) ^ (-e).toNat

/-- Model of the JavaScript builtin parseFloat: the scanned literal
denotes sign times mantissa times ten to the exponent; none models
NaN. -/
def parseFloat (s : String) : Option ℚ :=
  (scanFloat s.data).map (fun m => (cond m.1 (-(m.2.1 : ℚ)) (m.2.1 : ℚ)) * tenPow m.2.2)

/-- Model of Math.round: rounds to the nearest integer, half toward
positive infinity. -/
def jsRound (q : ℚ) : ℤ := ⌊q + 1 / 2⌋

/-- Rounding to the nearest integer with ties going half away from
zero.  This follows the wording of the specification; on the
nonnegative inputs reachable in this program it agrees with jsRound. -/
def specRound (q : ℚ) : ℤ := if 0 ≤ q then ⌊q + 1 / 2⌋ else ⌈q - 1 / 2⌉

/-- A catalog vehicle, from the VehicleType interface shared by both
versions: identifier, display name and fuel-efficiency ratio. -/
structure VehicleType where
  id : String
  name : String
  kmPerLiter : ℚ
deriving DecidableEq

/-- Modelled from the spec: vehicleConfig.json is not under src.  The
spec describes the vehicle catalog as a fixed ordered list of records
whose kmPerLiter is positive and whose identifiers populate the
selector alongside a none-selected placeholder whose value is the
empty string, so catalog identifiers are distinct from the empty
string. -/
def catalogWF (vehicleTypes : List VehicleType) : Prop :=
  ∀ v ∈ vehicleTypes, v.id ≠ "" ∧ 0 < v.kmPerLiter

/-- The two supported languages of the bilingual version. -/
inductive Language where
  | en : Language
  | id : Language
deriving DecidableEq

/-- The per-language error messages of the text catalog, the fields of
the errors object used by calculateFuelConsumption. -/
structure ErrorTexts where
  fillAllFields : String
  validNumbers : String
  kmBGreater : String
  validVehicle : String
deriving DecidableEq

/-- Modelled from the spec: translations.json is not under src.  The
spec describes the text catalog as a read-only mapping from the two
language tags to a structured set of UI strings with one error message
per failure kind; only the error branch is needed here, and the
concrete strings are stand-ins (the English ones taken from the
earlier English-only version), pairwise distinct within each
language. -/
def translations : Language → ErrorTexts
  | .en =>
    { fillAllFields := "Please fill in all fields"
      validNumbers := "Please enter valid numbers for kilometers"
      kmBGreater := "KM B must be greater than KM A"
      validVehicle := "Please select a valid vehicle type" }
  | .id =>
    { fillAllFields := "Mohon isi semua kolom"
      validNumbers := "Mohon masukkan angka kilometer yang valid"
      kmBGreater := "KM B harus lebih besar dari KM A"
      validVehicle := "Mohon pilih jenis kendaraan yang valid" }

/-- The component state of the bilingual version: the six useState
fields of App.  The error string is empty when no error is shown, and
the result is none when no result is shown. -/
structure FormState where
  kmA : String
  kmB : String
  selectedVehicle : String
  result : Option ℚ
  error : String
  language : Language
deriving DecidableEq

/-- The initial component state: empty fields, no result, no error,
Indonesian as the default language. -/
def initialState : FormState :=
  { kmA := "", kmB := "", selectedVehicle := "", result := none, error := ""
    language := .id }

/-- The calculateFuelConsumption handler of the bilingual version.  The
source first clears the error and the result and then every return
path sets exactly one of them; this definition records the final value
of both fields on each path.  The truthiness tests on the three text
fields are emptiness tests, isNaN of a parseFloat call is a parse
failure, and the vehicle lookup is find on the catalog list. -/
def calculateFuelConsumption (vehicleTypes : List VehicleType) (st : FormState) :
    FormState :=
  if st.kmA = "" ∨ st.kmB = "" ∨ st.selectedVehicle = "" then
    { st with result := none, error := (translations st.language).fillAllFields }
  else
    match parseFloat st.kmA, parseFloat st.kmB with
    | some kmANum, some kmBNum =>
      if kmBNum ≤ kmANum then
        { st with result := none, error := (translations st.language).kmBGreater }
      else
        match vehicleTypes.find? (fun v => v.id == st.selectedVehicle) with
        | some vehicle =>
          { st with error := ""
                    result := some ((jsRound ((kmBNum - kmANum) / vehicle.kmPerLiter * 100) : ℚ) / 100) }
        | none =>
          { st with result := none, error := (translations st.language).validVehicle }
    | _, _ =>
      { st with result := none, error := (translations st.language).validNumbers }

/-- The resetForm handler: clears the two text fields, the vehicle
selection, the result and the error.  The language is not touched. -/
def resetForm (st : FormState) : FormState :=
  { st with kmA := "", kmB := "", selectedVehicle := "", result := none, error := "" }

/-- The toggleLanguage handler: flips the language between the two
supported values and clears the error. -/
def toggleLanguage (st : FormState) : FormState :=
  { st with language := if st.language = .en then .id else .en, error := "" }

/-- The discrete user actions that mutate the component state: the
three field onChange setters, the two buttons and the language
toggle. -/
inductive Action where
  | setKmA : String → Action
  | setKmB : String → Action
  | setVehicle : String → Action
  | calculate : Action
  | reset : Action
  | toggle : Action

/-- One state transition per user action. -/
def step (vehicleTypes : List VehicleType) : Action → FormState → FormState
  | .setKmA v, st => { st with kmA := v }
  | .setKmB v, st => { st with kmB := v }
  | .setVehicle v, st => { st with selectedVehicle := v }
  | .calculate, st => calculateFuelConsumption vehicleTypes st
  | .reset, st => resetForm st
  | .toggle, st => toggleLanguage st

/-- The mutual-exclusion invariant: the result and the error are never
both present (a present error is a nonempty error string). -/
def resultErrorExclusive (st : FormState) : Prop :=
  st.result = none ∨ st.error = ""

/-- The live total-distance display of the render function: shown when
both text fields are nonempty, both parse and the end value exceeds
the start value; the displayed value is the unrounded difference of
the two parses.  It reads only the two text fields. -/
def totalDistance (st : FormState) : Option ℚ :=
  if st.kmA ≠ "" ∧ st.kmB ≠ "" then
    match parseFloat st.kmA, parseFloat st.kmB with
    | some a, some b => if a < b then some (b - a) else none
    | _, _ => none
  else none

/-- The component state of the earlier English-only version: the same
five fields without a language. -/
structure FormStateV1 where
  kmA : String
  kmB : String
  selectedVehicle : String
  result : Option ℚ
  error : String
deriving DecidableEq

/-- The calculateFuelConsumption handler of the earlier English-only
version, identical to the bilingual one except that the error messages
are string literals. -/
def calculateFuelConsumptionV1 (vehicleTypes : List VehicleType) (st : FormStateV1) :
    FormStateV1 :=
  if st.kmA = "" ∨ st.kmB = "" ∨ st.selectedVehicle = "" then
    { st with result := none, error := "Please fill in all fields" }
  else
    match parseFloat st.kmA, parseFloat st.kmB with
    | some kmANum, some kmBNum =>
      if kmBNum ≤ kmANum then
        { st with result := none, error := "KM B must be greater than KM A" }
      else
        match vehicleTypes.find? (fun v => v.id == st.selectedVehicle) with
        | some vehicle =>
          { st with error := ""
                    result := some ((jsRound ((kmBNum - kmANum) / vehicle.kmPerLiter * 100) : ℚ) / 100) }
        | none =>
          { st with result := none, error := "Please select a valid vehicle type" }
    | _, _ =>
      { st with result := none, error := "Please enter valid numbers for kilometers" }

/-- The four validation failure kinds shared by both versions. -/
inductive ErrKind where
  | missingField : ErrKind
  | badNumber : ErrKind
  | badRange : ErrKind
  | badVehicle : ErrKind
deriving DecidableEq

/-- Decode an error string of the English-only version to its failure
kind; none for the empty string or any other string. -/
def v1ErrKind (msg : String) : Option ErrKind :=
  if msg = "Please fill in all fields" then some .missingField
  else if msg = "Please enter valid numbers for kilometers" then some .badNumber
  else if msg = "KM B must be greater than KM A" then some .badRange
  else if msg = "Please select a valid vehicle type" then some .badVehicle
  else none

/-- Decode an error string of the bilingual version, in a given
language, to its failure kind; none for the empty string or any other
string. -/
def v2ErrKind (lang : Language) (msg : String) : Option ErrKind :=
  if msg = (translations lang).fillAllFields then some .missingField
  else if msg = (translations lang).validNumbers then some .badNumber
  else if msg = (translations lang).kmBGreater then some .badRange
  else if msg = (translations lang).validVehicle then some .badVehicle
  else none

/-- The empty string does not parse. -/
theorem parseFloat_empty : parseFloat "" = none := rfl

/-- A string that parses successfully is nonempty. -/
theorem parseFloat_ne_empty {s : String} {a : ℚ} (h : parseFloat s = some a) :
    s ≠ "" := by
  intro he
  subst he
  rw [parseFloat_empty] at h
  exact Option.noConfusion h

/-- On nonnegative arguments the rounding described by the spec agrees
with the Math.round model. -/
theorem specRound_eq_jsRound {q : ℚ} (h : 0 ≤ q) : specRound q = jsRound q :=
  if_pos h

/-- The state produced by calculateFuelConsumption never has a result
and a nonempty error at the same time. -/
theorem calculate_exclusive (vehicleTypes : List VehicleType) (st : FormState) :
    resultErrorExclusive (calculateFuelConsumption vehicleTypes st) := by
  unfold calculateFuelConsumption resultErrorExclusive
  repeat' split
  all_goals first | exact Or.inl rfl | exact Or.inr rfl

/-- C3: when the start text, the end text, or the vehicle identifier is
the empty string, calculateFuelConsumption sets the missing-field error
message drawn from the active language catalog and leaves the result
absent. -/
theorem calculate_missing_field (vehicleTypes : List VehicleType) (st : FormState)
    (h : st.kmA = "" ∨ st.kmB = "" ∨ st.selectedVehicle = "") :
    (calculateFuelConsumption vehicleTypes st).error =
      (translations st.language).fillAllFields ∧
    (calculateFuelConsumption vehicleTypes st).result = none := by
  unfold calculateFuelConsumption
  rw [if_pos h]
  exact ⟨rfl, rfl⟩

/-- Witness for C3 at the initial state, whose start text is empty. -/
theorem calculate_missing_field_witness :
    (calculateFuelConsumption [] initialState).error =
      (translations initialState.language).fillAllFields ∧
    (calculateFuelConsumption [] initialState).result = none :=
  calculate_missing_field [] initialState (Or.inl rfl)

/-- C7: resetForm returns the listed fields to their initial defaults
from every prior state: empty start and end texts, no vehicle selected,
result absent, error absent. -/
theorem resetForm_clears (st : FormState) :
    (resetForm st).kmA = "" ∧ (resetForm st).kmB = "" ∧
    (resetForm st).selectedVehicle = "" ∧ (resetForm st).result = none ∧
    (resetForm st).error = "" :=
  ⟨rfl, rfl, rfl, rfl, rfl⟩

/-- C8: toggleLanguage flips the language between the two supported
values and clears the error, leaving the start text, end text, vehicle
selection and result unchanged. -/
theorem toggleLanguage_flips (st : FormState) :
    (toggleLanguage st).language ≠ st.language ∧
    (toggleLanguage st).language = (if st.language = .en then .id else .en) ∧
    (toggleLanguage st).error = "" ∧
    (toggleLanguage st).kmA = st.kmA ∧
    (toggleLanguage st).kmB = st.kmB ∧
    (toggleLanguage st).selectedVehicle = st.selectedVehicle ∧
    (toggleLanguage st).result = st.result := by
  refine ⟨?_, rfl, rfl, rfl, rfl, rfl, rfl⟩
  cases h : st.language <;> simp [toggleLanguage, h]

/-- C2: the mutual-exclusion invariant between result and error holds
after every calculateFuelConsumption call, holds in the initial state,
and is preserved by every user action. -/
theorem result_error_exclusive_invariant :
    (∀ (vehicleTypes : List VehicleType) (st : FormState),
      resultErrorExclusive (calculateFuelConsumption vehicleTypes st)) ∧
    resultErrorExclusive initialState ∧
    (∀ (vehicleTypes : List VehicleType) (a : Action) (st : FormState),
      resultErrorExclusive st → resultErrorExclusive (step vehicleTypes a st)) := by
  refine ⟨calculate_exclusive, Or.inl rfl, ?_⟩
  rintro vehicleTypes (v | v | v | _ | _ | _) st h
  · exact h
  · exact h
  · exact h
  · exact calculate_exclusive vehicleTypes st
  · exact Or.inl rfl
  · exact Or.inr rfl

/-- Witness for C2: a field edit from the initial state, with the
invariant hypothesis discharged there. -/
theorem result_error_exclusive_invariant_witness :
    resultErrorExclusive (step [] (Action.setKmA "42") initialState) :=
  result_error_exclusive_invariant.2.2 [] (Action.setKmA "42") initialState
    (Or.inl rfl)

/-- C1: when both distance texts parse, the parsed end value exceeds
the parsed start value and the selected identifier matches a vehicle of
a catalog as the spec describes it, calculateFuelConsumption stores the
rounded result and sets no error; the rounding is half away from zero
on the scaled value, as the spec words it. -/
theorem calculate_success (vehicleTypes : List VehicleType) (st : FormState)
    (a b : ℚ) (v : VehicleType)
    (hWF : catalogWF vehicleTypes)
    (hA : parseFloat st.kmA = some a) (hB : parseFloat st.kmB = some b)
    (hab : a < b)
    (hv : vehicleTypes.find? (fun w => w.id == st.selectedVehicle) = some v) :
    (calculateFuelConsumption vehicleTypes st).result =
      some ((specRound ((b - a) / v.kmPerLiter * 100) : ℚ) / 100) ∧
    (calculateFuelConsumption vehicleTypes st).error = "" := by
  obtain ⟨hid, hpos⟩ := hWF v (List.mem_of_find?_eq_some hv)
  have hsel : st.selectedVehicle ≠ "" := by
    intro he
    have hp := List.find?_some hv
    rw [he] at hp
    exact hid (by simpa using hp)
  have hA' : st.kmA ≠ "" := parseFloat_ne_empty hA
  have hB' : st.kmB ≠ "" := parseFloat_ne_empty hB
  have hscale : (0 : ℚ) ≤ (b - a) / v.kmPerLiter * 100 :=
    le_of_lt (mul_pos (div_pos (sub_pos.mpr hab) hpos) (by norm_num))
  unfold calculateFuelConsumption
  rw [if_neg (by simp [hA', hB', hsel])]
  simp only [hA, hB]
  rw [if_neg (not_le.mpr hab), hv]
  rw [specRound_eq_jsRound hscale]
  exact ⟨rfl, rfl⟩

/-- The catalog used by the concrete examples: one vehicle with twenty
kilometers per liter, as in the worked example of the spec. -/
def exCatalog : List VehicleType := [{ id := "car", name := "Car", kmPerLiter := 20 }]

/-- The state of the worked example of the spec: start ten, end one
hundred ten, the example vehicle selected. -/
def exState : FormState :=
  { kmA := "10", kmB := "110", selectedVehicle := "car", result := none, error := ""
    language := .en }

/-- Concrete evaluation of the parse model on the start text of the
worked example. -/
theorem parseFloat_ten : parseFloat "10" = some 10 := by
  have h : scanFloat "10".data = some (false, 10, 0) := by decide
  simp [parseFloat, h, tenPow]

/-- Concrete evaluation of the parse model on the end text of the
worked example. -/
theorem parseFloat_oneTen : parseFloat "110" = some 110 := by
  have h : scanFloat "110".data = some (false, 110, 0) := by decide
  simp [parseFloat, h, tenPow]

/-- Witness for C1: the worked example of the spec, start ten, end one
hundred ten, twenty kilometers per liter, giving five liters. -/
theorem calculate_success_witness :
    (calculateFuelConsumption exCatalog exState).result = some 5 ∧
    (calculateFuelConsumption exCatalog exState).error = "" := by
  have hWF : catalogWF exCatalog := by
    intro v hv
    rw [exCatalog, List.mem_singleton] at hv
    subst hv
    exact ⟨by decide, by norm_num⟩
  have hfind : exCatalog.find? (fun w => w.id == exState.selectedVehicle) =
      some { id := "car", name := "Car", kmPerLiter := 20 } := rfl
  have h := calculate_success exCatalog exState 10 110
    { id := "car", name := "Car", kmPerLiter := 20 }
    hWF parseFloat_ten parseFloat_oneTen (by norm_num) hfind
  refine ⟨h.1.trans ?_, h.2⟩
  have hround : specRound ((110 - 10 : ℚ) / 20 * 100) = 500 := by
    rw [specRound, if_pos (by norm_num : (0 : ℚ) ≤ (110 - 10) / 20 * 100)]
    rw [show ((110 - 10 : ℚ) / 20 * 100 + 1 / 2) = 1001 / 2 by norm_num]
    rw [Int.floor_eq_iff]
    norm_num
  rw [hround]
  norm_num

/-- Concrete evaluation of the parse model on the text used by the
equal-readings example. -/
theorem parseFloat_fifty : parseFloat "50" = some 50 := by
  have h : scanFloat "50".data = some (false, 50, 0) := by decide
  simp [parseFloat, h, tenPow]

/-- A state whose start text is nonempty and not numeric while the end
text is empty. -/
def badNumberState : FormState :=
  { kmA := "abc", kmB := "", selectedVehicle := "car", result := none, error := ""
    language := .id }

/-- Counterexample to C4 as stated: the start text is nonempty and does
not parse, yet calculateFuelConsumption does not set the invalid-number
message, because the empty end text makes the missing-field check fire
first. -/
theorem calculate_invalid_number_cex :
    badNumberState.kmA ≠ "" ∧ parseFloat badNumberState.kmA = none ∧
    ¬((calculateFuelConsumption exCatalog badNumberState).error =
        (translations badNumberState.language).validNumbers ∧
      (calculateFuelConsumption exCatalog badNumberState).result = none) := by
  refine ⟨by decide, rfl, ?_⟩
  intro hcon
  exact absurd hcon.1 (by decide)

/-- C4 amended: when all three required fields are nonempty and either
distance text fails to parse, calculateFuelConsumption sets the
invalid-number message and leaves the result absent. -/
theorem calculate_invalid_number (vehicleTypes : List VehicleType) (st : FormState)
    (hA : st.kmA ≠ "") (hB : st.kmB ≠ "") (hV : st.selectedVehicle ≠ "")
    (hp : parseFloat st.kmA = none ∨ parseFloat st.kmB = none) :
    (calculateFuelConsumption vehicleTypes st).error =
      (translations st.language).validNumbers ∧
    (calculateFuelConsumption vehicleTypes st).result = none := by
  unfold calculateFuelConsumption
  rw [if_neg (by simp [hA, hB, hV])]
  rcases hp with hp | hp
  · simp [hp]
  · cases hA2 : parseFloat st.kmA
    · simp [hA2]
    · simp [hA2, hp]

/-- The state of the non-numeric example of the spec, with all fields
filled. -/
def wNumberState : FormState :=
  { kmA := "abc", kmB := "100", selectedVehicle := "car", result := none, error := ""
    language := .id }

/-- Witness for the amended C4: start text abc, end text one hundred,
a vehicle selected. -/
theorem calculate_invalid_number_witness :
    (calculateFuelConsumption exCatalog wNumberState).error =
      (translations wNumberState.language).validNumbers ∧
    (calculateFuelConsumption exCatalog wNumberState).result = none :=
  calculate_invalid_number exCatalog wNumberState (by decide) (by decide) (by decide)
    (Or.inl rfl)

/-- A state whose distance texts both parse to fifty while no vehicle
is selected. -/
def badRangeState : FormState :=
  { kmA := "50", kmB := "50", selectedVehicle := "", result := none, error := ""
    language := .id }

/-- Counterexample to C5 as stated: both distance texts parse to fifty,
yet calculateFuelConsumption does not set the invalid-range message,
because the unselected vehicle makes the missing-field check fire
first. -/
theorem calculate_invalid_range_cex :
    parseFloat badRangeState.kmA = some 50 ∧
    parseFloat badRangeState.kmB = some 50 ∧
    ¬((calculateFuelConsumption exCatalog badRangeState).error =
        (translations badRangeState.language).kmBGreater ∧
      (calculateFuelConsumption exCatalog badRangeState).result = none) := by
  refine ⟨parseFloat_fifty, parseFloat_fifty, ?_⟩
  intro hcon
  exact absurd hcon.1 (by decide)

/-- C5 amended: when a vehicle identifier is selected, both distance
texts parse and the parsed end value is less than or equal to the
parsed start value, calculateFuelConsumption sets the invalid-range
message and leaves the result absent. -/
theorem calculate_invalid_range (vehicleTypes : List VehicleType) (st : FormState)
    (a b : ℚ) (hV : st.selectedVehicle ≠ "")
    (hA : parseFloat st.kmA = some a) (hB : parseFloat st.kmB = some b)
    (hba : b ≤ a) :
    (calculateFuelConsumption vehicleTypes st).error =
      (translations st.language).kmBGreater ∧
    (calculateFuelConsumption vehicleTypes st).result = none := by
  have hA' : st.kmA ≠ "" := parseFloat_ne_empty hA
  have hB' : st.kmB ≠ "" := parseFloat_ne_empty hB
  unfold calculateFuelConsumption
  rw [if_neg (by simp [hA', hB', hV])]
  simp only [hA, hB]
  rw [if_pos hba]
  exact ⟨rfl, rfl⟩

/-- The state of the equal-readings example of the spec, with a vehicle
selected. -/
def wRangeState : FormState :=
  { kmA := "50", kmB := "50", selectedVehicle := "car", result := none, error := ""
    language := .en }

/-- Witness for the amended C5: both readings fifty and a vehicle
selected. -/
theorem calculate_invalid_range_witness :
    (calculateFuelConsumption exCatalog wRangeState).error =
      (translations wRangeState.language).kmBGreater ∧
    (calculateFuelConsumption exCatalog wRangeState).result = none :=
  calculate_invalid_range exCatalog wRangeState 50 50 (by decide)
    parseFloat_fifty parseFloat_fifty le_rfl

/-- The range check of the validation chain as a standalone predicate:
both texts parse and the end value does not exceed the start value. -/
def rangeBad (st : FormState) : Bool :=
  match parseFloat st.kmA, parseFloat st.kmB with
  | some a, some b => b ≤ a
  | _, _ => false

/-- C6: calculateFuelConsumption ignores any prior error and result,
and its error is determined by the first failing check in the fixed
order missing field, invalid number, invalid range, unknown vehicle,
with the empty error string when every check passes. -/
theorem calculate_first_error_wins (vehicleTypes : List VehicleType) (st : FormState)
    (e : String) (r : Option ℚ) :
    calculateFuelConsumption vehicleTypes { st with error := e, result := r } =
      calculateFuelConsumption vehicleTypes st ∧
    (calculateFuelConsumption vehicleTypes st).error =
      (if st.kmA = "" ∨ st.kmB = "" ∨ st.selectedVehicle = "" then
        (translations st.language).fillAllFields
      else if parseFloat st.kmA = none ∨ parseFloat st.kmB = none then
        (translations st.language).validNumbers
      else if rangeBad st then (translations st.language).kmBGreater
      else if vehicleTypes.find? (fun v => v.id == st.selectedVehicle) = none then
        (translations st.language).validVehicle
      else "") := by
  obtain ⟨kA, kB, sv, r0, e0, lang⟩ := st
  constructor
  · rfl
  · unfold calculateFuelConsumption rangeBad
    dsimp only
    split
    case isTrue h => rfl
    case isFalse h =>
      cases hA : parseFloat kA
      · simp [hA]
      · cases hB : parseFloat kB
        · simp [hA, hB]
        · rename_i a b
          simp only [hA, hB, reduceCtorEq, or_self, if_false]
          by_cases hba : b ≤ a
          · simp [hba]
          · rw [if_neg hba]
            cases hf : vehicleTypes.find? (fun v => v.id == sv)
            · simp [hf, hba]
            · simp [hf, hba]

/-- C9: the total-distance display is shown exactly when both distance
texts are nonempty, both parse and the parsed end value strictly
exceeds the parsed start value; when shown it is the unrounded
difference of the parses, and it depends only on the two text fields,
not on any result of calculateFuelConsumption. -/
theorem totalDistance_live (st : FormState) :
    (∀ d : ℚ, totalDistance st = some d ↔
      (st.kmA ≠ "" ∧ st.kmB ≠ "" ∧
        ∃ a b, parseFloat st.kmA = some a ∧ parseFloat st.kmB = some b ∧
          a < b ∧ d = b - a)) ∧
    (∀ st' : FormState, st'.kmA = st.kmA → st'.kmB = st.kmB →
      totalDistance st' = totalDistance st) := by
  constructor
  · intro d
    unfold totalDistance
    split
    case isTrue h =>
      obtain ⟨h1, h2⟩ := h
      cases hA : parseFloat st.kmA
      · simp [hA]
      · cases hB : parseFloat st.kmB
        · simp [hA, hB]
        · rename_i a b
          by_cases hab : a < b
          · simp [hA, hB, hab, h1, h2, eq_comm]
          · simp [hA, hB, hab]
    case isFalse h =>
      rw [not_and_or, not_ne_iff, not_ne_iff] at h
      constructor
      · intro hcon
        exact Option.noConfusion hcon
      · rintro ⟨h1, h2, -⟩
        rcases h with h | h
        · exact absurd h h1
        · exact absurd h h2
  · intro st' h1 h2
    unfold totalDistance
    rw [h1, h2]

/-- Witness for C9: two states sharing the distance texts ten and
seventy, one carrying a stale result and error, get the same display. -/
theorem totalDistance_live_witness :
    totalDistance
        { kmA := "10", kmB := "70", selectedVehicle := "", result := some 3,
          error := "stale", language := .en } =
      totalDistance
        { kmA := "10", kmB := "70", selectedVehicle := "car", result := none,
          error := "", language := .id } :=
  (totalDistance_live
      { kmA := "10", kmB := "70", selectedVehicle := "car", result := none,
        error := "", language := .id }).2
    { kmA := "10", kmB := "70", selectedVehicle := "", result := some 3,
      error := "stale", language := .en } rfl rfl

/-- C10: on identical start text, end text and selected identifier, the
English-only version and the bilingual version produce the same result,
agree on whether an error is shown, and fail at the same validation
step, the step being read off the error message of each version. -/
theorem v1_v2_equiv (vehicleTypes : List VehicleType)
    (s1 : FormStateV1) (s2 : FormState)
    (ha : s1.kmA = s2.kmA) (hb : s1.kmB = s2.kmB)
    (hv : s1.selectedVehicle = s2.selectedVehicle) :
    (calculateFuelConsumptionV1 vehicleTypes s1).result =
      (calculateFuelConsumption vehicleTypes s2).result ∧
    ((calculateFuelConsumptionV1 vehicleTypes s1).error = "" ↔
      (calculateFuelConsumption vehicleTypes s2).error = "") ∧
    v1ErrKind (calculateFuelConsumptionV1 vehicleTypes s1).error =
      v2ErrKind s2.language (calculateFuelConsumption vehicleTypes s2).error := by
  obtain ⟨a1, b1, w1, r1, e1⟩ := s1
  obtain ⟨a2, b2, w2, r2, e2, lang⟩ := s2
  dsimp only at ha hb hv ⊢
  subst ha hb hv
  unfold calculateFuelConsumptionV1 calculateFuelConsumption
  dsimp only
  split
  case isTrue h =>
    refine ⟨rfl, ?_, ?_⟩ <;> cases lang <;> (dsimp only; decide)
  case isFalse h =>
    cases hA : parseFloat a1
    · refine ⟨rfl, ?_, ?_⟩ <;> cases lang <;> (dsimp only; decide)
    · cases hB : parseFloat b1
      · refine ⟨rfl, ?_, ?_⟩ <;> cases lang <;> (dsimp only; decide)
      · rename_i a b
        dsimp only
        by_cases hba : b ≤ a
        · rw [if_pos hba, if_pos hba]
          refine ⟨rfl, ?_, ?_⟩ <;> cases lang <;> (dsimp only; decide)
        · rw [if_neg hba, if_neg hba]
          cases hf : vehicleTypes.find? (fun v => v.id == w1)
          · refine ⟨rfl, ?_, ?_⟩ <;> cases lang <;> (dsimp only; decide)
          · refine ⟨rfl, ?_, ?_⟩ <;> cases lang <;> (dsimp only; decide)

/-- Witness for C10: the two versions agree at matching concrete
states, here the empty initial inputs. -/
theorem v1_v2_equiv_witness :
    (calculateFuelConsumptionV1 []
        { kmA := "", kmB := "", selectedVehicle := "", result := none, error := "" }).result =
      (calculateFuelConsumption [] initialState).result ∧
    ((calculateFuelConsumptionV1 []
        { kmA := "", kmB := "", selectedVehicle := "", result := none, error := "" }).error = "" ↔
      (calculateFuelConsumption [] initialState).error = "") ∧
    v1ErrKind (calculateFuelConsumptionV1 []
        { kmA := "", kmB := "", selectedVehicle := "", result := none, error := "" }).error =
      v2ErrKind initialState.language (calculateFuelConsumption [] initialState).error :=
  v1_v2_equiv [] { kmA := "", kmB := "", selectedVehicle := "", result := none, error := "" }
    initialState rfl rfl rfl

end FuelCalc
